import Mathlib

/-
Verification of the workflow-orchestration core of the python-SAST-agent
repository (src/app.py, src/utils.py) against its natural-language
specification.

The two websocket handlers (`scan_websocket`, `fix_websocket`) are embedded
shallowly: the handling of a single received request is a pure function from
the request and an oracle of external outcomes (git exit codes and captured
streams, docker build/run results, the container exit status and logs, the
GitHub API results, the AI agent outcome, the Slack posts) to the list of
observable events the handler performs, in order.  JSON parsing
(`json.loads`) is an opaque standard-library function and is passed in as a
parameter `pj : String → Option Json`.  Process-level state (the current
working directory and the set of live temporary directories) is obtained by
folding the event trace.
-/

/-- A JSON value, the shape of `json.loads` results and of websocket
message payloads. -/
inductive Json where
  | null
  | bool (b : Bool)
  | num (n : Int)
  | str (s : String)
  | arr (elems : List Json)
  | obj (fields : List (String × Json))
deriving BEq

/-- A Python exception, reduced to its class name (`type(e).__name__`) and
its text (`str(e)`). -/
structure PyExc where
  name : String
  msg : String

/-- The `status` field of a server→client websocket message. -/
inductive Status where
  | progress
  | success
  | error
  | warning
deriving DecidableEq

/-- One server→client websocket message:
`{status, message, data?}` as sent by `ConnectionManager.send_message`. -/
structure Msg where
  status : Status
  message : String
  data : Option Json
deriving BEq

/-- The result of one `subprocess.run` of a git command, as produced by the
external process: exit code plus the text the process wrote on its output
and error streams (captured by the handler only when `capture_output=True`
was passed). -/
structure GitResult where
  code : Int
  outText : String
  errText : String

/-- Observable events performed by a handler while serving one request, in
program order. -/
inductive Event where
  | send (m : Msg)
  | acquireDir (d : String)
  | releaseDir (d : String)
  | chdir (d : String)
  | gitRun (args : List String)
  | dockerBuild
  | containerRun
  | containerWait
  | parseReport
  | containerRemove
  | imageRemove
  | aiderRun
  | createPull (title body base head : String)
  | slackScan
  | slackFixAlert (prUrl : String)
deriving BEq

/-- A scan request `{repo_url, github_token, slack_webhook_url?}`;
`none` models an absent key (`data.get(...)` returning `None`). -/
structure ScanReq where
  repoUrl : Option String
  githubToken : Option String
  slackWebhookUrl : Option String

/-- A fix request
`{repo_url, github_token, vulnerability, file_path, vulnerable_code?,
slack_webhook_url?}`. -/
structure FixReq where
  repoUrl : Option String
  githubToken : Option String
  vulnerability : Option String
  filePath : Option String
  vulnerableCode : Option String
  slackWebhookUrl : Option String

/-- Python truthiness of an optional string: `None` and `""` are falsy. -/
def truthy : Option String → Bool
  | none => false
  | some s => !(s == "")

/-- Python `f"{x}"` on an optional string: `None` prints as `"None"`. -/
def fmtOpt : Option String → String
  | none => "None"
  | some s => s

/-- Python `repr` of a list of strings, as it appears in
`CalledProcessError` messages. -/
def pyListRepr (xs : List String) : String :=
  "[" ++ String.intercalate ", " (xs.map (fun s => "\x27" ++ s ++ "\x27")) ++ "]"

/-- `str(subprocess.CalledProcessError(code, cmd))` for a non-zero exit
code.  (For a negative code CPython prints the signal name; the signal
number stands in for it here.) -/
def cpeMsg (cmd : List String) (code : Int) : String :=
  if code < 0 then
    "Command \x27" ++ pyListRepr cmd ++ "\x27 died with signal " ++ toString (-code) ++ "."
  else
    "Command \x27" ++ pyListRepr cmd ++ "\x27 returned non-zero exit status " ++ toString code ++ "."

/-- The Python type name of a parsed JSON value, as used in
`AttributeError` messages. -/
def pyTypeName : Json → String
  | .null => "NoneType"
  | .bool _ => "bool"
  | .num _ => "int"
  | .str _ => "str"
  | .arr _ => "list"
  | .obj _ => "dict"

/-- The `AttributeError` raised by `x.get(...)` when `x` is not a dict. -/
def attrExcGet (j : Json) : PyExc :=
  ⟨"AttributeError", "\x27" ++ pyTypeName j ++ "\x27 object has no attribute \x27get\x27"⟩

/-- The message sent by the shared `except Exception` handler of both
workflows: `{"status": "error", "message": str(e),
"data": {"error_type": type(e).__name__}}`. -/
def excMsg (e : PyExc) : Msg :=
  ⟨.error, e.msg, some (.obj [("error_type", .str e.name)])⟩

/-- An error message with an optional data payload. -/
def mkErr (m : String) (d : Option Json) : Msg := ⟨.error, m, d⟩

/-- A progress message (no data payload). -/
def mkProg (m : String) : Msg := ⟨.progress, m, none⟩

/-- Line 33: `not repo_url or not github_token`. -/
def scanMissingParams (req : ScanReq) : Bool :=
  !(truthy req.repoUrl && truthy req.githubToken)

/-- External outcomes consumed by one scan request: `docker.from_env`, the
fresh temporary directory name, the `git clone` result, `images.build`,
`containers.run`, the container exit status and captured logs, and the
Slack notification loop. -/
structure ScanExt where
  dockerEnv : Except PyExc Unit
  tempDir : String
  clone : GitResult
  build : Except PyExc Unit
  runC : Except PyExc Unit
  waitCode : Int
  logs : String
  slackLoop : Except PyExc Unit

/-- External outcomes consumed by one fix request: `g.get_user()` (login
and email, either possibly `None`), `g.get_repo(...)` (its default
branch), the 4 random hex digits of the branch name, the temporary
directory, the git command results, the aider invocation, the two
`create_pull` calls (each returning `html_url`), and the Slack post. -/
structure FixExt where
  userRes : Except PyExc (Option String × Option String)
  repoRes : Except PyExc String
  hex4 : String
  tempDir : String
  clone : GitResult
  checkoutCode : Int
  setUrlCode : Int
  cfgNameCode : Int
  cfgEmailCode : Int
  fetchCode : Int
  aider : Except PyExc Unit
  addCode : Int
  push : GitResult
  pr1 : Except PyExc String
  pr2 : Except PyExc String
  slackFix : Except PyExc Unit

/-- The event trace of `scan_websocket` handling one received request.

Mirrors src/app.py lines 28-176: validation, `docker.from_env()`, the
`tempfile.TemporaryDirectory()` scope (released on every exit of its
body, before the `except` handler runs and before the `finally` block),
clone, bandit config/Dockerfile materialization, image build, detached
container run, wait, log capture, exit-code interpretation, JSON parsing
of the logs, the success payload, the optional Slack loop, and the
`finally` container/image cleanup (which only acts when the container was
created during this request; its own failures are logged, not sent). -/
def scanTrace (req : ScanReq) (o : ScanExt) (pj : String → Option Json) : List Event :=
  if scanMissingParams req then
    [.send (mkErr "Missing required parameters" none)]
  else
    .send (mkProg "Initializing scan...") ::
    match o.dockerEnv with
    | .error e => [.send (excMsg e)]
    | .ok _ =>
      .acquireDir o.tempDir ::
      .send (mkProg "Cloning repository...") ::
      .gitRun ["git", "clone", fmtOpt req.repoUrl, o.tempDir] ::
      if o.clone.code ≠ 0 then
        [.send (mkErr "Repository clone failed" (some (.obj [("error", .str o.clone.errText)]))),
         .releaseDir o.tempDir]
      else
        .send (mkProg "Running security scan...") ::
        .dockerBuild ::
        match o.build with
        | .error e => [.releaseDir o.tempDir, .send (excMsg e)]
        | .ok _ =>
          .containerRun ::
          match o.runC with
          | .error e => [.releaseDir o.tempDir, .send (excMsg e)]
          | .ok _ =>
            .containerWait ::
            if o.waitCode ≠ 0 ∧ o.waitCode ≠ 1 then
              [.send (mkErr ("Bandit scan failed: " ++ o.logs)
                 (some (.obj [("error_type", .str "BanditError")]))),
               .releaseDir o.tempDir, .containerRemove, .imageRemove]
            else
              .parseReport ::
              match pj o.logs with
              | none =>
                [.send (mkErr "Failed to parse scan results"
                   (some (.obj [("error", .str o.logs)]))),
                 .releaseDir o.tempDir, .containerRemove, .imageRemove]
              | some (.obj fields) =>
                .send ⟨.success, "Scan completed successfully",
                  some (.obj [("vulnerabilities", (fields.lookup "results").getD (.arr []))])⟩ ::
                if truthy req.slackWebhookUrl then
                  .send (mkProg "Sending Slack notification...") ::
                  match o.slackLoop with
                  | .ok _ => [.slackScan, .releaseDir o.tempDir, .containerRemove, .imageRemove]
                  | .error e =>
                    [.send (mkErr ("Failed to send Slack notification: " ++ e.msg)
                       (some (.obj [("error_type", .str e.name)]))),
                     .releaseDir o.tempDir, .containerRemove, .imageRemove]
                else
                  [.releaseDir o.tempDir, .containerRemove, .imageRemove]
              | some j =>
                [.releaseDir o.tempDir, .send (excMsg (attrExcGet j)),
                 .containerRemove, .imageRemove]

/-- Line 195:
`not all([repo_url, github_token, vulnerability, file_path])` for a
request whose `repo_url` is present with value `rurl`. -/
def fixMissingParams (rurl : String) (req : FixReq) : Bool :=
  !(truthy (some rurl) && truthy req.githubToken &&
    truthy req.vulnerability && truthy req.filePath)

/-- The credential-embedded clone URL computed on line 193:
`repo_url.replace("https://", f"https://x-access-token:{github_token}@")`. -/
def authUrlOf (rurl : String) (tok : Option String) : String :=
  rurl.replace "https://" ("https://x-access-token:" ++ fmtOpt tok ++ "@")

/-- The branch name `f"security-fix-{os.urandom(4).hex()}"` computed by the
fix workflow (line 222). -/
def newBranchOf (o : FixExt) : String := "security-fix-" ++ o.hex4

/-- The fix workflow from the aider invocation on (src/app.py lines
274-350): AI fix, `git add`, `git push`, the two `create_pull` calls, the
optional Slack post, and the success terminal. -/
def fixAiderPhase (req : FixReq) (o : FixExt) (baseBranch : String) : List Event :=
  .aiderRun ::
  match o.aider with
  | .error e => [.releaseDir o.tempDir, .send (excMsg e)]
  | .ok _ =>
    .gitRun ["git", "add", fmtOpt req.filePath] ::
    if o.addCode ≠ 0 then
      [.releaseDir o.tempDir,
       .send (excMsg ⟨"CalledProcessError",
         cpeMsg ["git", "add", fmtOpt req.filePath] o.addCode⟩)]
    else
      .gitRun ["git", "push", "origin", newBranchOf o] ::
      if o.push.code ≠ 0 then
        [.releaseDir o.tempDir,
         .send (excMsg ⟨"CalledProcessError",
           cpeMsg ["git", "push", "origin", newBranchOf o] o.push.code⟩)]
      else
        -- dead branch of the source: reached only with
        -- returncode = 0 because check=True already raised
        if o.push.code ≠ 0 then
          [.send (mkErr "Failed to push changes"
             (some (.obj [("error", .null)]))),
           .releaseDir o.tempDir]
        else
          .createPull "Automated Security Fix"
            ("Fixes vulnerability: " ++ fmtOpt req.vulnerability)
            baseBranch (newBranchOf o) ::
          match o.pr1 with
          | .error e => [.releaseDir o.tempDir, .send (excMsg e)]
          | .ok _ =>
            .send (mkProg "Creating pull request...") ::
            .createPull "Automated Security Fix"
              ("Fixes vulnerability: " ++ fmtOpt req.vulnerability)
              baseBranch (newBranchOf o) ::
            match o.pr2 with
            | .error e => [.releaseDir o.tempDir, .send (excMsg e)]
            | .ok url2 =>
              if truthy req.slackWebhookUrl then
                .send (mkProg "Sending Slack notification...") ::
                .slackFixAlert url2 ::
                match o.slackFix with
                | .ok _ =>
                  [.send ⟨.success, "Pull request created successfully",
                     some (.obj [("pr_url", .str url2)])⟩,
                   .releaseDir o.tempDir]
                | .error se =>
                  [.send ⟨.warning,
                     "PR created but Slack notification failed: " ++ se.msg,
                     none⟩,
                   .send ⟨.success, "Pull request created successfully",
                     some (.obj [("pr_url", .str url2)])⟩,
                   .releaseDir o.tempDir]
              else
                [.send ⟨.success, "Pull request created successfully",
                   some (.obj [("pr_url", .str url2)])⟩,
                 .releaseDir o.tempDir]

/-- The fix workflow from the `with tempfile.TemporaryDirectory()` scope on
(src/app.py lines 224-272), after identity and repository resolution:
clone, `os.chdir`, checkout (exit code unchecked), remote set-url, the
two config commands, and the fetch, handing over to `fixAiderPhase`.
`username`/`uemail` are the resolved identity, `baseBranch` the
repository's default branch. -/
def fixClonePhase (req : FixReq) (o : FixExt)
    (authUrl username uemail baseBranch : String) : List Event :=
  .acquireDir o.tempDir ::
  .send (mkProg "Cloning repository...") ::
  .gitRun ["git", "clone", authUrl, o.tempDir] ::
  if o.clone.code ≠ 0 then
    [.send (mkErr "Repository clone failed"
       (some (.obj [("error", .str o.clone.errText)]))),
     .releaseDir o.tempDir]
  else
    .chdir o.tempDir ::
    .gitRun ["git", "checkout", "-b", newBranchOf o] ::
    .gitRun ["git", "remote", "set-url", "origin", authUrl] ::
    if o.setUrlCode ≠ 0 then
      [.releaseDir o.tempDir,
       .send (excMsg ⟨"CalledProcessError",
         cpeMsg ["git", "remote", "set-url", "origin", authUrl] o.setUrlCode⟩)]
    else
      .gitRun ["git", "config", "user.name", username] ::
      if o.cfgNameCode ≠ 0 then
        [.releaseDir o.tempDir,
         .send (excMsg ⟨"CalledProcessError",
           cpeMsg ["git", "config", "user.name", username] o.cfgNameCode⟩)]
      else
        .gitRun ["git", "config", "user.email", uemail] ::
        if o.cfgEmailCode ≠ 0 then
          [.releaseDir o.tempDir,
           .send (excMsg ⟨"CalledProcessError",
             cpeMsg ["git", "config", "user.email", uemail] o.cfgEmailCode⟩)]
        else
          .gitRun ["git", "fetch", "origin", baseBranch] ::
          if o.fetchCode ≠ 0 then
            [.releaseDir o.tempDir,
             .send (excMsg ⟨"CalledProcessError",
               cpeMsg ["git", "fetch", "origin", baseBranch] o.fetchCode⟩)]
          else
            fixAiderPhase req o baseBranch

/-- The event trace of `fix_websocket` handling one received request.

Mirrors src/app.py lines 186-357.  `repo_url.replace(...)` runs before
the required-field validation, so a request whose `repo_url` is absent
raises `AttributeError` on `None.replace` outside the `try` block and no
message is sent (see `fixCrash`).  `git checkout -b` runs with
`check=False` and its return code is never examined.  The commands run
with `check=True` (remote set-url, config, fetch, add, push) raise
`CalledProcessError` on non-zero exit, caught by the outer handler after
the temporary-directory scope releases; their output is not captured, so
the dead `change_push.returncode` branch would see `stderr = None`.
`repo.create_pull` is invoked twice with identical arguments
(lines 307 and 319). -/
def fixEvents (req : FixReq) (o : FixExt) : List Event :=
  match req.repoUrl with
  | none => []
  | some rurl =>
    if fixMissingParams rurl req then
      [.send (mkErr "Missing required parameters" none)]
    else
      .send (mkProg "Initializing GitHub connection...") ::
      match o.userRes with
      | .error e => [.send (excMsg e)]
      | .ok ue =>
        match o.repoRes with
        | .error e => [.send (excMsg e)]
        | .ok baseBranch =>
          .send (mkProg "Creating fix branch...") ::
          fixClonePhase req o (authUrlOf rurl req.githubToken)
            (ue.1.getD "") (ue.2.getD "") baseBranch

/-- The exception escaping `fix_websocket` unhandled for a request:
`repo_url.replace` on line 193 runs before the required-field check and
before the `try` block, so an absent `repo_url` raises `AttributeError`
past the handler. -/
def fixCrash (req : FixReq) : Option PyExc :=
  match req.repoUrl with
  | none =>
    some ⟨"AttributeError", "\x27NoneType\x27 object has no attribute \x27replace\x27"⟩
  | some _ => none

/-- The event trace of `fix_websocket` handling one received request,
paired with the exception that escapes the handler unhandled, if any. -/
def fixTrace (req : FixReq) (o : FixExt) : List Event × Option PyExc :=
  (fixEvents req o, fixCrash req)

/-- Process-wide state observable across requests: the current working
directory and the temporary directories currently existing. -/
structure ProcState where
  cwd : String
  dirs : List String

/-- Effect of one event on the process state. -/
def applyEvent (st : ProcState) : Event → ProcState
  | .acquireDir d => { st with dirs := st.dirs ++ [d] }
  | .releaseDir d => { st with dirs := st.dirs.erase d }
  | .chdir d => { st with cwd := d }
  | _ => st

/-- The process state after a trace of events. -/
def runEvents (st : ProcState) (tr : List Event) : ProcState :=
  tr.foldl applyEvent st

/-- The fix endpoint's session loop: requests are handled in order on one
process state; an unhandled exception tears the session down. -/
def fixSession (st : ProcState) : List (FixReq × FixExt) → ProcState
  | [] => st
  | (req, o) :: rest =>
    match fixTrace req o with
    | (tr, none) => fixSession (runEvents st tr) rest
    | (tr, some _) => runEvents st tr

/-- The messages sent to the client, in order, within a trace. -/
def sentMsgs (tr : List Event) : List Msg :=
  tr.filterMap fun e => match e with | .send m => some m | _ => none

/-- A terminal message: status `success` or `error`. -/
def Msg.isTerminal (m : Msg) : Bool :=
  m.status == .success || m.status == .error

/-- `true` iff the message list is non-empty, its last element is
terminal, and no earlier element is terminal. -/
def oneTerminalLast (ms : List Msg) : Bool :=
  match ms.reverse with
  | [] => false
  | m :: pre => m.isTerminal && pre.all (fun x => !x.isTerminal)

/-- The trailing messages allowed after the scan success when a Slack
webhook is present: the notification progress, optionally followed by the
notification-failure error. -/
def slackTail : List Msg → Bool
  | [p] => p.status == .progress
  | [p, e] => p.status == .progress && e.status == .error
  | _ => false

/-- `true` iff the messages are non-terminal ones, then one `success`,
then a Slack tail. -/
def successThenSlack : List Msg → Bool
  | [] => false
  | m :: rest =>
    if m.isTerminal then m.status == .success && slackTail rest
    else successThenSlack rest

/-- Number of `create_pull` invocations in a trace. -/
def countPull (tr : List Event) : Nat :=
  tr.countP fun e => match e with | .createPull _ _ _ _ => true | _ => false

/-- Number of resource-affecting events (anything that is not a message
send) in a trace. -/
def countResource (tr : List Event) : Nat :=
  tr.countP fun e => match e with | .send _ => false | _ => true

/-- Substring test on character lists. -/
def listContains (hay sub : List Char) : Bool :=
  sub.isPrefixOf hay ||
    match hay with
    | [] => false
    | _ :: t => listContains t sub

/-- Substring test on strings (Python `in`). -/
def strContains (hay sub : String) : Bool :=
  listContains hay.data sub.data

/-! Helper lemmas shared by several results. -/

theorem erase_append_self (a : String) (l : List String) (h : a ∉ l) :
    (l ++ [a]).erase a = l := by
  induction l with
  | nil => simp
  | cons x xs ih =>
    simp only [List.mem_cons, not_or] at h
    simp [List.erase_cons, Ne.symm h.1, ih h.2]

/-- Directory balance for the fix handler: every acquired workspace is
released, so the set of live directories is unchanged by a request. -/
theorem fix_dirs_eq (st : ProcState) (req : FixReq) (o : FixExt)
    (hd : o.tempDir ∉ st.dirs) :
    (runEvents st (fixEvents req o)).dirs = st.dirs := by
  unfold fixEvents fixClonePhase
  repeat' split
  all_goals try (unfold fixAiderPhase; repeat' split)
  all_goals simp [runEvents, applyEvent, List.foldl, erase_append_self _ _ hd]

/-- Directory balance for the scan handler. -/
theorem scan_dirs_eq (st : ProcState) (req : ScanReq) (o : ScanExt)
    (pj : String → Option Json) (hd : o.tempDir ∉ st.dirs) :
    (runEvents st (scanTrace req o pj)).dirs = st.dirs := by
  unfold scanTrace
  repeat' split
  all_goals simp [runEvents, applyEvent, List.foldl, erase_append_self _ _ hd]

/-! ### C6 — workspace cleanup on every exit path -/

/-- C6: every workflow invocation that acquires a workspace deletes it by
the time the invocation ends, on every control-flow exit path (normal
success, every error branch, and any raised exception): for every
request, oracle of external outcomes, and parse function, the set of
live temporary directories after the invocation equals the set before it
(the fresh directory is assumed not to pre-exist, as `tempfile`
guarantees). -/
theorem workspace_released_all_paths :
    (∀ (st : ProcState) (req : ScanReq) (o : ScanExt) (pj : String → Option Json),
      o.tempDir ∉ st.dirs → (runEvents st (scanTrace req o pj)).dirs = st.dirs) ∧
    (∀ (st : ProcState) (req : FixReq) (o : FixExt),
      o.tempDir ∉ st.dirs → (runEvents st (fixEvents req o)).dirs = st.dirs) :=
  ⟨fun st req o pj hd => scan_dirs_eq st req o pj hd,
   fun st req o hd => fix_dirs_eq st req o hd⟩

/-- Witness for C6 at concrete inputs (a failing-parse scan and a fully
successful fix). -/
theorem workspace_released_all_paths_wit :
    (runEvents ⟨"/app", []⟩ (scanTrace
      ⟨some "https://github.com/o/r.git", some "ghp-token", none⟩
      ⟨.ok (), "/tmp/ws-scan", ⟨0, "", ""⟩, .ok (), .ok (), 0, "not json", .ok ()⟩
      (fun _ => none))).dirs = [] ∧
    (runEvents ⟨"/app", []⟩ (fixEvents
      ⟨some "https://github.com/o/r.git", some "ghp-token", some "eval used",
       some "app.py", none, none⟩
      ⟨.ok (some "octocat", some "octo@example.com"), .ok "main", "ab12cd34",
       "/tmp/ws-fix", ⟨0, "", ""⟩, 0, 0, 0, 0, 0, .ok (), 0, ⟨0, "", ""⟩,
       .ok "https://github.com/o/r/pull/7", .ok "https://github.com/o/r/pull/8",
       .ok ()⟩)).dirs = [] :=
  ⟨workspace_released_all_paths.1 _ _ _ _ (by simp),
   workspace_released_all_paths.2 _ _ _ (by simp)⟩

/-! ### C10 — the fix workflow leaks its working-directory change -/

/-- C10: every fix invocation that reaches the post-clone stage changes
the process-wide working directory to the temporary workspace and never
restores it: at the end of the invocation the working directory is the
(by then deleted) workspace directory, and the rest of the session runs
from the state the invocation left behind. -/
theorem fix_cwd_leak (st : ProcState) (req : FixReq) (o : FixExt)
    (hru : truthy req.repoUrl = true)
    (ht : truthy req.githubToken = true)
    (hv : truthy req.vulnerability = true)
    (hf : truthy req.filePath = true)
    (hu : ∀ e, o.userRes ≠ .error e)
    (hr : ∀ e, o.repoRes ≠ .error e)
    (hc : o.clone.code = 0)
    (hd : o.tempDir ∉ st.dirs) :
    (runEvents st (fixEvents req o)).cwd = o.tempDir ∧
    o.tempDir ∉ (runEvents st (fixEvents req o)).dirs ∧
    (∀ rest, fixSession st ((req, o) :: rest) =
      fixSession (runEvents st (fixEvents req o)) rest) := by
  refine ⟨?_, ?_, ?_⟩
  · unfold fixEvents fixClonePhase
    repeat' split
    all_goals try (unfold fixAiderPhase; repeat' split)
    all_goals simp_all [runEvents, applyEvent, List.foldl, truthy, fixMissingParams]
  · rw [fix_dirs_eq st req o hd]
    exact hd
  · intro rest
    rcases hqu : req.repoUrl with _ | ru
    · rw [hqu] at hru
      simp [truthy] at hru
    · simp [fixSession, fixTrace, fixCrash, hqu]

/-- Witness for C10: a fully successful fix run started from `/app`
leaves the process in the deleted workspace directory, and the next
request of the session starts there. -/
theorem fix_cwd_leak_wit :
    (runEvents ⟨"/app", []⟩ (fixEvents
      ⟨some "https://github.com/o/r.git", some "ghp-token", some "eval used",
       some "app.py", none, none⟩
      ⟨.ok (some "octocat", some "octo@example.com"), .ok "main", "ab12cd34",
       "/tmp/ws-fix2", ⟨0, "", ""⟩, 0, 0, 0, 0, 0, .ok (), 0, ⟨0, "", ""⟩,
       .ok "https://github.com/o/r/pull/7", .ok "https://github.com/o/r/pull/8",
       .ok ()⟩)).cwd = "/tmp/ws-fix2" ∧
    "/tmp/ws-fix2" ∉ (runEvents ⟨"/app", []⟩ (fixEvents
      ⟨some "https://github.com/o/r.git", some "ghp-token", some "eval used",
       some "app.py", none, none⟩
      ⟨.ok (some "octocat", some "octo@example.com"), .ok "main", "ab12cd34",
       "/tmp/ws-fix2", ⟨0, "", ""⟩, 0, 0, 0, 0, 0, .ok (), 0, ⟨0, "", ""⟩,
       .ok "https://github.com/o/r/pull/7", .ok "https://github.com/o/r/pull/8",
       .ok ()⟩)).dirs :=
  by
  have h := fix_cwd_leak ⟨"/app", []⟩
    ⟨some "https://github.com/o/r.git", some "ghp-token", some "eval used",
     some "app.py", none, none⟩
    ⟨.ok (some "octocat", some "octo@example.com"), .ok "main", "ab12cd34",
     "/tmp/ws-fix2", ⟨0, "", ""⟩, 0, 0, 0, 0, 0, .ok (), 0, ⟨0, "", ""⟩,
     .ok "https://github.com/o/r/pull/7", .ok "https://github.com/o/r/pull/8",
     .ok ()⟩
    rfl rfl rfl rfl (by simp) (by simp) rfl (by simp)
  exact ⟨h.1, h.2.1⟩

/-! ### C1 — terminal-message discipline -/

/-- C1 counterexample: for a scan request carrying a Slack webhook whose
scan succeeds, the `success` terminal is NOT the last message sent — the
"Sending Slack notification..." progress message follows it, so the
claim as stated is false. -/
theorem scan_slack_success_not_last_cex :
    oneTerminalLast (sentMsgs (scanTrace
      ⟨some "https://github.com/o/r.git", some "ghp-token",
       some "https://hooks.slack.com/services/T/B/X"⟩
      ⟨.ok (), "/tmp/ws-scan-slack", ⟨0, "", ""⟩, .ok (), .ok (), 0,
       "json report text", .ok ()⟩
      (fun _ => some (.obj [("results", .arr [])])))) = false := rfl

/-- C1 (amended): for every fix request whose `repo_url` is present,
exactly one terminal (`success`/`error`) message is sent and it is last,
all `progress`/`warning` strictly before it; the same holds for every
scan request without a Slack webhook.  For a scan request with a Slack
webhook, either the same holds (failure paths), or the single `success`
terminal is followed by exactly one notification `progress` message and,
if the notification loop raises, one further `error` message. -/
theorem terminal_discipline_amended :
    (∀ (req : ScanReq) (o : ScanExt) (pj : String → Option Json),
      truthy req.slackWebhookUrl = false →
      oneTerminalLast (sentMsgs (scanTrace req o pj)) = true) ∧
    (∀ (req : ScanReq) (o : ScanExt) (pj : String → Option Json),
      truthy req.slackWebhookUrl = true →
      oneTerminalLast (sentMsgs (scanTrace req o pj)) = true ∨
      successThenSlack (sentMsgs (scanTrace req o pj)) = true) ∧
    (∀ (req : FixReq) (o : FixExt), req.repoUrl.isSome = true →
      oneTerminalLast (sentMsgs (fixEvents req o)) = true) := by
  refine ⟨?_, ?_, ?_⟩
  · intro req o pj hs
    unfold scanTrace
    repeat' split
    all_goals simp_all [sentMsgs, oneTerminalLast, Msg.isTerminal, mkErr, mkProg, excMsg]
  · intro req o pj hs
    unfold scanTrace
    repeat' split
    all_goals simp_all [sentMsgs, oneTerminalLast, successThenSlack, slackTail,
      Msg.isTerminal, mkErr, mkProg, excMsg]
  · intro req o hru
    unfold fixEvents fixClonePhase
    repeat' split
    all_goals try (unfold fixAiderPhase; repeat' split)
    all_goals simp_all [sentMsgs, oneTerminalLast, Msg.isTerminal, mkErr, mkProg, excMsg]

/-- Witness for C1 (amended) at concrete inputs: a webhook-less scan that
ends in a parse error, a webhook-carrying scan that succeeds, and a fix
run whose push raises. -/
theorem terminal_discipline_amended_wit :
    oneTerminalLast (sentMsgs (scanTrace
      ⟨some "https://github.com/o/r.git", some "ghp-token", none⟩
      ⟨.ok (), "/tmp/ws-c1a", ⟨0, "", ""⟩, .ok (), .ok (), 0, "not json", .ok ()⟩
      (fun _ => none))) = true ∧
    (oneTerminalLast (sentMsgs (scanTrace
      ⟨some "https://github.com/o/r.git", some "ghp-token",
       some "https://hooks.slack.com/services/T/B/X"⟩
      ⟨.ok (), "/tmp/ws-c1b", ⟨0, "", ""⟩, .ok (), .ok (), 1,
       "json report text", .ok ()⟩
      (fun _ => some (.obj [("results", .arr [])])))) = true ∨
     successThenSlack (sentMsgs (scanTrace
      ⟨some "https://github.com/o/r.git", some "ghp-token",
       some "https://hooks.slack.com/services/T/B/X"⟩
      ⟨.ok (), "/tmp/ws-c1b", ⟨0, "", ""⟩, .ok (), .ok (), 1,
       "json report text", .ok ()⟩
      (fun _ => some (.obj [("results", .arr [])])))) = true) ∧
    oneTerminalLast (sentMsgs (fixEvents
      ⟨some "https://github.com/o/r.git", some "ghp-token", some "eval used",
       some "app.py", none, none⟩
      ⟨.ok (some "octocat", some "octo@example.com"), .ok "main", "ab12cd34",
       "/tmp/ws-c1c", ⟨0, "", ""⟩, 0, 0, 0, 0, 0, .ok (), 0,
       ⟨1, "", "remote rejected"⟩, .ok "https://github.com/o/r/pull/7",
       .ok "https://github.com/o/r/pull/8", .ok ()⟩)) = true :=
  ⟨terminal_discipline_amended.1 _ _ _ rfl,
   terminal_discipline_amended.2.1 _ _ _ rfl,
   terminal_discipline_amended.2.2 _ _ rfl⟩

/-! ### C4 — push failure handling -/

/-- C4 counterexample: for a fix run whose `git push` exits 1 after
writing "fatal: could not read from remote repository" on stderr, the
terminal `error` is the `CalledProcessError` text — its message does not
contain the push's stderr (which was never captured: the push runs
without `capture_output`), and its payload is only the error type, so
the claim that the payload contains the captured stderr is false. -/
theorem push_fail_no_stderr_cex :
    (sentMsgs (fixEvents
      ⟨some "https://github.com/o/r.git", some "ghp-token", some "eval used",
       some "app.py", none, none⟩
      ⟨.ok (some "octocat", some "octo@example.com"), .ok "main", "ab12cd34",
       "/tmp/ws-c4", ⟨0, "", ""⟩, 0, 0, 0, 0, 0, .ok (), 0,
       ⟨1, "", "fatal: could not read from remote repository"⟩,
       .ok "https://github.com/o/r/pull/7", .ok "https://github.com/o/r/pull/8",
       .ok ()⟩)).getLast? =
      some (excMsg ⟨"CalledProcessError",
        cpeMsg ["git", "push", "origin", "security-fix-ab12cd34"] 1⟩) ∧
    strContains (cpeMsg ["git", "push", "origin", "security-fix-ab12cd34"] 1)
      "fatal: could not read from remote repository" = false ∧
    countPull (fixEvents
      ⟨some "https://github.com/o/r.git", some "ghp-token", some "eval used",
       some "app.py", none, none⟩
      ⟨.ok (some "octocat", some "octo@example.com"), .ok "main", "ab12cd34",
       "/tmp/ws-c4", ⟨0, "", ""⟩, 0, 0, 0, 0, 0, .ok (), 0,
       ⟨1, "", "fatal: could not read from remote repository"⟩,
       .ok "https://github.com/o/r/pull/7", .ok "https://github.com/o/r/pull/8",
       .ok ()⟩) = 0 := ⟨rfl, rfl, rfl⟩

/-- C4 (amended): if the `git push` step exits non-zero, no pull request
is created for that request and the terminal message is an `error` whose
text is the `CalledProcessError` message naming the push command and its
exit status, with payload `{"error_type": "CalledProcessError"}`; the
push's stderr is not captured (the push runs without output capture) and
appears nowhere in the message. -/
theorem push_fail_amended (req : FixReq) (o : FixExt) (ru : String)
    (ue : Option String × Option String) (bb : String)
    (hru : req.repoUrl = some ru)
    (hmv : fixMissingParams ru req = false)
    (hu : o.userRes = .ok ue)
    (hr : o.repoRes = .ok bb)
    (hc : o.clone.code = 0)
    (hsu : o.setUrlCode = 0) (hcn : o.cfgNameCode = 0) (hce : o.cfgEmailCode = 0)
    (hfe : o.fetchCode = 0) (hai : o.aider = .ok ()) (had : o.addCode = 0)
    (hp : o.push.code ≠ 0) :
    countPull (fixEvents req o) = 0 ∧
    (sentMsgs (fixEvents req o)).getLast? =
      some (excMsg ⟨"CalledProcessError",
        cpeMsg ["git", "push", "origin", newBranchOf o] o.push.code⟩) := by
  constructor
  · simp [fixEvents, fixClonePhase, fixAiderPhase, hru, hmv, hu, hr, hc, hsu,
      hcn, hce, hfe, hai, had, hp, countPull]
  · simp [fixEvents, fixClonePhase, fixAiderPhase, hru, hmv, hu, hr, hc, hsu,
      hcn, hce, hfe, hai, had, hp, sentMsgs]

/-- Witness for C4 (amended) at a concrete push failure with exit code 128. -/
theorem push_fail_amended_wit :
    countPull (fixEvents
      ⟨some "https://github.com/o/r.git", some "ghp-token", some "eval used",
       some "app.py", none, none⟩
      ⟨.ok (some "octocat", some "octo@example.com"), .ok "main", "ab12cd34",
       "/tmp/ws-c4w", ⟨0, "", ""⟩, 0, 0, 0, 0, 0, .ok (), 0,
       ⟨128, "", "fatal: repository not found"⟩,
       .ok "https://github.com/o/r/pull/7", .ok "https://github.com/o/r/pull/8",
       .ok ()⟩) = 0 ∧
    (sentMsgs (fixEvents
      ⟨some "https://github.com/o/r.git", some "ghp-token", some "eval used",
       some "app.py", none, none⟩
      ⟨.ok (some "octocat", some "octo@example.com"), .ok "main", "ab12cd34",
       "/tmp/ws-c4w", ⟨0, "", ""⟩, 0, 0, 0, 0, 0, .ok (), 0,
       ⟨128, "", "fatal: repository not found"⟩,
       .ok "https://github.com/o/r/pull/7", .ok "https://github.com/o/r/pull/8",
       .ok ()⟩)).getLast? =
      some (excMsg ⟨"CalledProcessError",
        cpeMsg ["git", "push", "origin", "security-fix-ab12cd34"] 128⟩) :=
  push_fail_amended _ _ "https://github.com/o/r.git" (some "octocat", some "octo@example.com")
    "main" rfl rfl rfl rfl rfl rfl rfl rfl rfl rfl rfl (by decide)

/-! ### C5 — surfacing of git command failures -/

/-- C5 counterexample: a fix run whose `git checkout -b` exits 1 (all
other steps succeeding) does not fail at all — the workflow proceeds and
ends in `success`, because the checkout runs with `check=False` and its
return code is never examined.  This falsifies the claim that every
non-zero source-control exit immediately fails the workflow. -/
theorem checkout_fail_ignored_cex :
    (sentMsgs (fixEvents
      ⟨some "https://github.com/o/r.git", some "ghp-token", some "eval used",
       some "app.py", none, none⟩
      ⟨.ok (some "octocat", some "octo@example.com"), .ok "main", "ab12cd34",
       "/tmp/ws-c5", ⟨0, "", ""⟩, 1, 0, 0, 0, 0, .ok (), 0, ⟨0, "", ""⟩,
       .ok "https://github.com/o/r/pull/7", .ok "https://github.com/o/r/pull/8",
       .ok ()⟩)).map (fun m => m.status) =
      [.progress, .progress, .progress, .progress, .success] := rfl

/-- C5 (amended): a non-zero `git clone` exit (scan or fix workflow)
immediately fails the workflow with a terminal `error` whose payload
carries the captured stderr.  A non-zero exit of the `check=True`
commands (remote set-url, config user.name, config user.email, fetch,
add, push) immediately fails the workflow via `CalledProcessError`,
surfaced as a terminal `error` whose text names the command and its exit
status but contains no stderr (these commands run without output
capture).  The `git checkout -b` exit code is ignored: the trace is
identical whatever it is. -/
theorem git_failure_surfacing_amended :
    (∀ (req : ScanReq) (o : ScanExt) (pj : String → Option Json),
      scanMissingParams req = false → o.dockerEnv = .ok () → o.clone.code ≠ 0 →
      (sentMsgs (scanTrace req o pj)).getLast? =
        some (mkErr "Repository clone failed"
          (some (.obj [("error", .str o.clone.errText)])))) ∧
    (∀ (req : FixReq) (o : FixExt) (ru : String)
      (ue : Option String × Option String) (bb : String),
      req.repoUrl = some ru → fixMissingParams ru req = false →
      o.userRes = .ok ue → o.repoRes = .ok bb → o.clone.code ≠ 0 →
      (sentMsgs (fixEvents req o)).getLast? =
        some (mkErr "Repository clone failed"
          (some (.obj [("error", .str o.clone.errText)])))) ∧
    (∀ (req : FixReq) (o : FixExt) (c : Int),
      fixEvents req { o with checkoutCode := c } = fixEvents req o) ∧
    (∀ (req : FixReq) (o : FixExt) (ru : String)
      (ue : Option String × Option String) (bb : String),
      req.repoUrl = some ru → fixMissingParams ru req = false →
      o.userRes = .ok ue → o.repoRes = .ok bb → o.clone.code = 0 →
      o.setUrlCode ≠ 0 →
      (sentMsgs (fixEvents req o)).getLast? =
        some (excMsg ⟨"CalledProcessError",
          cpeMsg ["git", "remote", "set-url", "origin", authUrlOf ru req.githubToken]
            o.setUrlCode⟩)) ∧
    (∀ (req : FixReq) (o : FixExt) (ru : String)
      (ue : Option String × Option String) (bb : String),
      req.repoUrl = some ru → fixMissingParams ru req = false →
      o.userRes = .ok ue → o.repoRes = .ok bb → o.clone.code = 0 →
      o.setUrlCode = 0 → o.cfgNameCode ≠ 0 →
      (sentMsgs (fixEvents req o)).getLast? =
        some (excMsg ⟨"CalledProcessError",
          cpeMsg ["git", "config", "user.name", ue.1.getD ""] o.cfgNameCode⟩)) ∧
    (∀ (req : FixReq) (o : FixExt) (ru : String)
      (ue : Option String × Option String) (bb : String),
      req.repoUrl = some ru → fixMissingParams ru req = false →
      o.userRes = .ok ue → o.repoRes = .ok bb → o.clone.code = 0 →
      o.setUrlCode = 0 → o.cfgNameCode = 0 → o.cfgEmailCode ≠ 0 →
      (sentMsgs (fixEvents req o)).getLast? =
        some (excMsg ⟨"CalledProcessError",
          cpeMsg ["git", "config", "user.email", ue.2.getD ""] o.cfgEmailCode⟩)) ∧
    (∀ (req : FixReq) (o : FixExt) (ru : String)
      (ue : Option String × Option String) (bb : String),
      req.repoUrl = some ru → fixMissingParams ru req = false →
      o.userRes = .ok ue → o.repoRes = .ok bb → o.clone.code = 0 →
      o.setUrlCode = 0 → o.cfgNameCode = 0 → o.cfgEmailCode = 0 →
      o.fetchCode ≠ 0 →
      (sentMsgs (fixEvents req o)).getLast? =
        some (excMsg ⟨"CalledProcessError",
          cpeMsg ["git", "fetch", "origin", bb] o.fetchCode⟩)) ∧
    (∀ (req : FixReq) (o : FixExt) (ru : String)
      (ue : Option String × Option String) (bb : String),
      req.repoUrl = some ru → fixMissingParams ru req = false →
      o.userRes = .ok ue → o.repoRes = .ok bb → o.clone.code = 0 →
      o.setUrlCode = 0 → o.cfgNameCode = 0 → o.cfgEmailCode = 0 →
      o.fetchCode = 0 → o.aider = .ok () → o.addCode ≠ 0 →
      (sentMsgs (fixEvents req o)).getLast? =
        some (excMsg ⟨"CalledProcessError",
          cpeMsg ["git", "add", fmtOpt req.filePath] o.addCode⟩)) ∧
    (∀ (req : FixReq) (o : FixExt) (ru : String)
      (ue : Option String × Option String) (bb : String),
      req.repoUrl = some ru → fixMissingParams ru req = false →
      o.userRes = .ok ue → o.repoRes = .ok bb → o.clone.code = 0 →
      o.setUrlCode = 0 → o.cfgNameCode = 0 → o.cfgEmailCode = 0 →
      o.fetchCode = 0 → o.aider = .ok () → o.addCode = 0 → o.push.code ≠ 0 →
      (sentMsgs (fixEvents req o)).getLast? =
        some (excMsg ⟨"CalledProcessError",
          cpeMsg ["git", "push", "origin", newBranchOf o] o.push.code⟩)) := by
  refine ⟨?_, ?_, ?_, ?_, ?_, ?_, ?_, ?_, ?_⟩
  · intro req o pj hv hde hc
    simp [scanTrace, hv, hde, hc, sentMsgs]
  · intro req o ru ue bb hru hmv hu hr hc
    simp [fixEvents, fixClonePhase, hru, hmv, hu, hr, hc, sentMsgs]
  · intro req o c
    rfl
  · intro req o ru ue bb hru hmv hu hr hc hsu
    simp [fixEvents, fixClonePhase, hru, hmv, hu, hr, hc, hsu, sentMsgs]
  · intro req o ru ue bb hru hmv hu hr hc hsu hcn
    simp [fixEvents, fixClonePhase, hru, hmv, hu, hr, hc, hsu, hcn, sentMsgs]
  · intro req o ru ue bb hru hmv hu hr hc hsu hcn hce
    simp [fixEvents, fixClonePhase, hru, hmv, hu, hr, hc, hsu, hcn, hce, sentMsgs]
  · intro req o ru ue bb hru hmv hu hr hc hsu hcn hce hfe
    simp [fixEvents, fixClonePhase, hru, hmv, hu, hr, hc, hsu, hcn, hce, hfe, sentMsgs]
  · intro req o ru ue bb hru hmv hu hr hc hsu hcn hce hfe hai had
    simp [fixEvents, fixClonePhase, fixAiderPhase, hru, hmv, hu, hr, hc, hsu,
      hcn, hce, hfe, hai, had, sentMsgs]
  · intro req o ru ue bb hru hmv hu hr hc hsu hcn hce hfe hai had hp
    simp [fixEvents, fixClonePhase, fixAiderPhase, hru, hmv, hu, hr, hc, hsu,
      hcn, hce, hfe, hai, had, hp, sentMsgs]

/-- Witness for C5 (amended): each conjunct applied at a concrete input. -/
theorem git_failure_surfacing_amended_wit :
    (sentMsgs (scanTrace
      ⟨some "https://github.com/o/r.git", some "ghp-token", none⟩
      ⟨.ok (), "/tmp/ws-c5w", ⟨128, "", "fatal: early EOF"⟩, .ok (), .ok (), 0,
       "logs", .ok ()⟩ (fun _ => none))).getLast? =
      some (mkErr "Repository clone failed"
        (some (.obj [("error", .str "fatal: early EOF")]))) ∧
    (sentMsgs (fixEvents
      ⟨some "https://github.com/o/r.git", some "ghp-token", some "eval used",
       some "app.py", none, none⟩
      ⟨.ok (some "octocat", some "octo@example.com"), .ok "main", "ab12cd34",
       "/tmp/ws-c5w", ⟨128, "", "fatal: auth failed"⟩, 0, 0, 0, 0, 0, .ok (), 0,
       ⟨0, "", ""⟩, .ok "u1", .ok "u2", .ok ()⟩)).getLast? =
      some (mkErr "Repository clone failed"
        (some (.obj [("error", .str "fatal: auth failed")]))) ∧
    fixEvents
      ⟨some "https://github.com/o/r.git", some "ghp-token", some "eval used",
       some "app.py", none, none⟩
      ⟨.ok (some "octocat", some "octo@example.com"), .ok "main", "ab12cd34",
       "/tmp/ws-c5w", ⟨0, "", ""⟩, 77, 0, 0, 0, 0, .ok (), 0,
       ⟨0, "", ""⟩, .ok "u1", .ok "u2", .ok ()⟩ =
      fixEvents
      ⟨some "https://github.com/o/r.git", some "ghp-token", some "eval used",
       some "app.py", none, none⟩
      ⟨.ok (some "octocat", some "octo@example.com"), .ok "main", "ab12cd34",
       "/tmp/ws-c5w", ⟨0, "", ""⟩, 0, 0, 0, 0, 0, .ok (), 0,
       ⟨0, "", ""⟩, .ok "u1", .ok "u2", .ok ()⟩ ∧
    (sentMsgs (fixEvents
      ⟨some "https://github.com/o/r.git", some "ghp-token", some "eval used",
       some "app.py", none, none⟩
      ⟨.ok (some "octocat", some "octo@example.com"), .ok "main", "ab12cd34",
       "/tmp/ws-c5w", ⟨0, "", ""⟩, 0, 3, 0, 0, 0, .ok (), 0,
       ⟨0, "", ""⟩, .ok "u1", .ok "u2", .ok ()⟩)).getLast? =
      some (excMsg ⟨"CalledProcessError",
        cpeMsg ["git", "remote", "set-url", "origin",
          authUrlOf "https://github.com/o/r.git" (some "ghp-token")] 3⟩) ∧
    (sentMsgs (fixEvents
      ⟨some "https://github.com/o/r.git", some "ghp-token", some "eval used",
       some "app.py", none, none⟩
      ⟨.ok (some "octocat", some "octo@example.com"), .ok "main", "ab12cd34",
       "/tmp/ws-c5w", ⟨0, "", ""⟩, 0, 0, 4, 0, 0, .ok (), 0,
       ⟨0, "", ""⟩, .ok "u1", .ok "u2", .ok ()⟩)).getLast? =
      some (excMsg ⟨"CalledProcessError",
        cpeMsg ["git", "config", "user.name", "octocat"] 4⟩) ∧
    (sentMsgs (fixEvents
      ⟨some "https://github.com/o/r.git", some "ghp-token", some "eval used",
       some "app.py", none, none⟩
      ⟨.ok (some "octocat", some "octo@example.com"), .ok "main", "ab12cd34",
       "/tmp/ws-c5w", ⟨0, "", ""⟩, 0, 0, 0, 5, 0, .ok (), 0,
       ⟨0, "", ""⟩, .ok "u1", .ok "u2", .ok ()⟩)).getLast? =
      some (excMsg ⟨"CalledProcessError",
        cpeMsg ["git", "config", "user.email", "octo@example.com"] 5⟩) ∧
    (sentMsgs (fixEvents
      ⟨some "https://github.com/o/r.git", some "ghp-token", some "eval used",
       some "app.py", none, none⟩
      ⟨.ok (some "octocat", some "octo@example.com"), .ok "main", "ab12cd34",
       "/tmp/ws-c5w", ⟨0, "", ""⟩, 0, 0, 0, 0, 6, .ok (), 0,
       ⟨0, "", ""⟩, .ok "u1", .ok "u2", .ok ()⟩)).getLast? =
      some (excMsg ⟨"CalledProcessError",
        cpeMsg ["git", "fetch", "origin", "main"] 6⟩) ∧
    (sentMsgs (fixEvents
      ⟨some "https://github.com/o/r.git", some "ghp-token", some "eval used",
       some "app.py", none, none⟩
      ⟨.ok (some "octocat", some "octo@example.com"), .ok "main", "ab12cd34",
       "/tmp/ws-c5w", ⟨0, "", ""⟩, 0, 0, 0, 0, 0, .ok (), 7,
       ⟨0, "", ""⟩, .ok "u1", .ok "u2", .ok ()⟩)).getLast? =
      some (excMsg ⟨"CalledProcessError",
        cpeMsg ["git", "add", "app.py"] 7⟩) ∧
    (sentMsgs (fixEvents
      ⟨some "https://github.com/o/r.git", some "ghp-token", some "eval used",
       some "app.py", none, none⟩
      ⟨.ok (some "octocat", some "octo@example.com"), .ok "main", "ab12cd34",
       "/tmp/ws-c5w", ⟨0, "", ""⟩, 0, 0, 0, 0, 0, .ok (), 0,
       ⟨9, "", "remote rejected"⟩, .ok "u1", .ok "u2", .ok ()⟩)).getLast? =
      some (excMsg ⟨"CalledProcessError",
        cpeMsg ["git", "push", "origin", "security-fix-ab12cd34"] 9⟩) :=
  ⟨git_failure_surfacing_amended.1 _ _ _ rfl rfl (by decide),
   git_failure_surfacing_amended.2.1 _ _ "https://github.com/o/r.git"
     (some "octocat", some "octo@example.com") "main" rfl rfl rfl rfl (by decide),
   git_failure_surfacing_amended.2.2.1
     ⟨some "https://github.com/o/r.git", some "ghp-token", some "eval used",
      some "app.py", none, none⟩
     ⟨.ok (some "octocat", some "octo@example.com"), .ok "main", "ab12cd34",
      "/tmp/ws-c5w", ⟨0, "", ""⟩, 0, 0, 0, 0, 0, .ok (), 0,
      ⟨0, "", ""⟩, .ok "u1", .ok "u2", .ok ()⟩ 77,
   git_failure_surfacing_amended.2.2.2.1 _ _ "https://github.com/o/r.git"
     (some "octocat", some "octo@example.com") "main" rfl rfl rfl rfl rfl (by decide),
   git_failure_surfacing_amended.2.2.2.2.1 _ _ "https://github.com/o/r.git"
     (some "octocat", some "octo@example.com") "main" rfl rfl rfl rfl rfl rfl (by decide),
   git_failure_surfacing_amended.2.2.2.2.2.1 _ _ "https://github.com/o/r.git"
     (some "octocat", some "octo@example.com") "main" rfl rfl rfl rfl rfl rfl rfl (by decide),
   git_failure_surfacing_amended.2.2.2.2.2.2.1 _ _ "https://github.com/o/r.git"
     (some "octocat", some "octo@example.com") "main" rfl rfl rfl rfl rfl rfl rfl rfl (by decide),
   git_failure_surfacing_amended.2.2.2.2.2.2.2.1 _ _ "https://github.com/o/r.git"
     (some "octocat", some "octo@example.com") "main" rfl rfl rfl rfl rfl rfl rfl rfl rfl rfl (by decide),
   git_failure_surfacing_amended.2.2.2.2.2.2.2.2 _ _ "https://github.com/o/r.git"
     (some "octocat", some "octo@example.com") "main" rfl rfl rfl rfl rfl rfl rfl rfl rfl rfl rfl (by decide)⟩

/-! ### C7 — scanner exit-code interpretation -/

/-- C7: in the scan workflow, a container exit code of 0 or 1 is treated
as a completed scan and the workflow proceeds to parsing the report,
while any other exit code yields a terminal `error` carrying the
captured container logs in its text and the `BanditError` error kind,
without ever parsing the report. -/
theorem scanner_exit_code_convention (req : ScanReq) (o : ScanExt)
    (pj : String → Option Json)
    (hv : scanMissingParams req = false)
    (hde : o.dockerEnv = .ok ())
    (hc : o.clone.code = 0)
    (hb : o.build = .ok ())
    (hrn : o.runC = .ok ()) :
    (¬(o.waitCode = 0 ∨ o.waitCode = 1) →
      Event.parseReport ∉ scanTrace req o pj ∧
      (sentMsgs (scanTrace req o pj)).getLast? =
        some (mkErr ("Bandit scan failed: " ++ o.logs)
          (some (.obj [("error_type", .str "BanditError")])))) ∧
    ((o.waitCode = 0 ∨ o.waitCode = 1) → Event.parseReport ∈ scanTrace req o pj) := by
  constructor
  · intro hw
    rw [not_or] at hw
    constructor
    · simp [scanTrace, hv, hde, hc, hb, hrn, hw.1, hw.2]
    · simp [scanTrace, hv, hde, hc, hb, hrn, hw.1, hw.2, sentMsgs]
  · intro hw
    unfold scanTrace
    repeat' split
    all_goals simp_all

/-- Witness for C7: exit code 2 yields the `BanditError` terminal and no
parse; exit code 1 reaches the parse step. -/
theorem scanner_exit_code_convention_wit :
    (Event.parseReport ∉ scanTrace
      ⟨some "https://github.com/o/r.git", some "ghp-token", none⟩
      ⟨.ok (), "/tmp/ws-c7a", ⟨0, "", ""⟩, .ok (), .ok (), 2, "bandit blew up", .ok ()⟩
      (fun _ => none) ∧
     (sentMsgs (scanTrace
      ⟨some "https://github.com/o/r.git", some "ghp-token", none⟩
      ⟨.ok (), "/tmp/ws-c7a", ⟨0, "", ""⟩, .ok (), .ok (), 2, "bandit blew up", .ok ()⟩
      (fun _ => none))).getLast? =
      some (mkErr ("Bandit scan failed: " ++ "bandit blew up")
        (some (.obj [("error_type", .str "BanditError")])))) ∧
    Event.parseReport ∈ scanTrace
      ⟨some "https://github.com/o/r.git", some "ghp-token", none⟩
      ⟨.ok (), "/tmp/ws-c7b", ⟨0, "", ""⟩, .ok (), .ok (), 1, "report", .ok ()⟩
      (fun _ => none) :=
  by
  have ha := scanner_exit_code_convention
    ⟨some "https://github.com/o/r.git", some "ghp-token", none⟩
    ⟨.ok (), "/tmp/ws-c7a", ⟨0, "", ""⟩, .ok (), .ok (), 2, "bandit blew up", .ok ()⟩
    (fun _ => none) rfl rfl rfl rfl rfl
  have hb := scanner_exit_code_convention
    ⟨some "https://github.com/o/r.git", some "ghp-token", none⟩
    ⟨.ok (), "/tmp/ws-c7b", ⟨0, "", ""⟩, .ok (), .ok (), 1, "report", .ok ()⟩
    (fun _ => none) rfl rfl rfl rfl rfl
  exact ⟨ha.1 (by decide), hb.2 (Or.inr rfl)⟩

/-! ### C8 — success payload is the report's results array -/

/-- C8: whenever the captured scanner output parses as a JSON object
containing a `results` field, the scan workflow sends the `success`
message (it is the fourth message) whose `vulnerabilities` payload is
that `results` value unchanged. -/
theorem scan_success_vulnerabilities_verbatim (req : ScanReq) (o : ScanExt)
    (pj : String → Option Json) (fs : List (String × Json)) (r : Json)
    (hv : scanMissingParams req = false)
    (hde : o.dockerEnv = .ok ())
    (hc : o.clone.code = 0)
    (hb : o.build = .ok ())
    (hrn : o.runC = .ok ())
    (hw : o.waitCode = 0 ∨ o.waitCode = 1)
    (hpj : pj o.logs = some (.obj fs))
    (hres : fs.lookup "results" = some r) :
    (sentMsgs (scanTrace req o pj)).get? 3 =
      some ⟨.success, "Scan completed successfully",
        some (.obj [("vulnerabilities", r)])⟩ := by
  rcases hw with hw | hw <;>
    simp [scanTrace, hv, hde, hc, hb, hrn, hw, hpj, hres, sentMsgs]

/-- Witness for C8 at the report from the specification. -/
theorem scan_success_vulnerabilities_verbatim_wit :
    (sentMsgs (scanTrace
      ⟨some "https://github.com/o/r.git", some "ghp-token", none⟩
      ⟨.ok (), "/tmp/ws-c8", ⟨0, "", ""⟩, .ok (), .ok (), 1, "report text", .ok ()⟩
      (fun _ => some (.obj [("results", .arr [.obj
        [("issue_severity", .str "HIGH"), ("filename", .str "a.py"),
         ("line_number", .num 3), ("issue_text", .str "eval use"),
         ("code", .str "eval(x)")]])])))).get? 3 =
      some ⟨.success, "Scan completed successfully",
        some (.obj [("vulnerabilities", .arr [.obj
          [("issue_severity", .str "HIGH"), ("filename", .str "a.py"),
           ("line_number", .num 3), ("issue_text", .str "eval use"),
           ("code", .str "eval(x)")]])])⟩ :=
  scan_success_vulnerabilities_verbatim _ _ _
    [("results", .arr [.obj
      [("issue_severity", .str "HIGH"), ("filename", .str "a.py"),
       ("line_number", .num 3), ("issue_text", .str "eval use"),
       ("code", .str "eval(x)")]])]
    (.arr [.obj
      [("issue_severity", .str "HIGH"), ("filename", .str "a.py"),
       ("line_number", .num 3), ("issue_text", .str "eval use"),
       ("code", .str "eval(x)")]])
    rfl rfl rfl rfl rfl (Or.inr rfl) rfl rfl

/-! ### C9 — malformed report handling -/

/-- C9: whenever the captured scanner output does not parse as JSON, the
scan workflow's terminal (last) message is an `error` whose payload
carries the raw captured output verbatim under the `error` key. -/
theorem malformed_report_raw_payload (req : ScanReq) (o : ScanExt)
    (pj : String → Option Json)
    (hv : scanMissingParams req = false)
    (hde : o.dockerEnv = .ok ())
    (hc : o.clone.code = 0)
    (hb : o.build = .ok ())
    (hrn : o.runC = .ok ())
    (hw : o.waitCode = 0 ∨ o.waitCode = 1)
    (hpj : pj o.logs = none) :
    (sentMsgs (scanTrace req o pj)).getLast? =
      some (mkErr "Failed to parse scan results"
        (some (.obj [("error", .str o.logs)]))) := by
  rcases hw with hw | hw <;>
    simp [scanTrace, hv, hde, hc, hb, hrn, hw, hpj, sentMsgs]

/-- Witness for C9 at concrete non-JSON output. -/
theorem malformed_report_raw_payload_wit :
    (sentMsgs (scanTrace
      ⟨some "https://github.com/o/r.git", some "ghp-token", none⟩
      ⟨.ok (), "/tmp/ws-c9", ⟨0, "", ""⟩, .ok (), .ok (), 0,
       "Traceback (most recent call last): boom", .ok ()⟩
      (fun _ => none))).getLast? =
      some (mkErr "Failed to parse scan results"
        (some (.obj [("error", .str "Traceback (most recent call last): boom")]))) :=
  malformed_report_raw_payload _ _ _ rfl rfl rfl rfl rfl (Or.inl rfl) rfl

/-! ### C2 — validation of required fields -/

/-- C2 (code bug): a fix request whose `repo_url` is absent never reaches
the validation check — line 193 evaluates `None.replace(...)` first, so
the handler raises `AttributeError` outside its `try` block: no message
at all is sent (the claimed immediate terminal `error` never happens),
and the websocket handler is torn down.  (A request missing any of the
other required fields, and a scan request missing either field, does get
the immediate lone `error`, with no resource events before it.) -/
theorem fix_missing_repo_url_crash :
    fixTrace
      ⟨none, some "ghp-token", some "eval used", some "app.py", none, none⟩
      ⟨.ok (some "octocat", some "octo@example.com"), .ok "main", "ab12cd34",
       "/tmp/ws-c2", ⟨0, "", ""⟩, 0, 0, 0, 0, 0, .ok (), 0, ⟨0, "", ""⟩,
       .ok "https://github.com/o/r/pull/7", .ok "https://github.com/o/r/pull/8",
       .ok ()⟩ =
      ([], some ⟨"AttributeError",
        "\x27NoneType\x27 object has no attribute \x27replace\x27"⟩) ∧
    (∀ (req : ScanReq) (o : ScanExt) (pj : String → Option Json),
      scanMissingParams req = true →
      scanTrace req o pj = [.send (mkErr "Missing required parameters" none)]) ∧
    (∀ (req : FixReq) (o : FixExt) (ru : String),
      req.repoUrl = some ru → fixMissingParams ru req = true →
      fixTrace req o = ([.send (mkErr "Missing required parameters" none)], none)) := by
  refine ⟨rfl, ?_, ?_⟩
  · intro req o pj hm
    simp [scanTrace, hm]
  · intro req o ru hru hm
    simp [fixTrace, fixEvents, fixCrash, hru, hm]

/-! ### C3 — pull-request creation -/

/-- C3 (code bug): a fix request that reaches the pull-request step does
not create exactly one pull request — `repo.create_pull` is invoked
twice with identical arguments (src/app.py lines 307 and 319, with the
"Creating pull request..." progress message between them), and the
`success` payload's `pr_url` is the second call's URL.  Each call does
use the fixed title, the vulnerability-referencing body, the resolved
default branch as base and the generated fix branch as head. -/
theorem fix_double_create_pull :
    countPull (fixEvents
      ⟨some "https://github.com/o/r.git", some "ghp-token", some "eval used",
       some "app.py", none, none⟩
      ⟨.ok (some "octocat", some "octo@example.com"), .ok "main", "ab12cd34",
       "/tmp/ws-c3", ⟨0, "", ""⟩, 0, 0, 0, 0, 0, .ok (), 0, ⟨0, "", ""⟩,
       .ok "https://github.com/o/r/pull/7", .ok "https://github.com/o/r/pull/8",
       .ok ()⟩) = 2 ∧
    (fixEvents
      ⟨some "https://github.com/o/r.git", some "ghp-token", some "eval used",
       some "app.py", none, none⟩
      ⟨.ok (some "octocat", some "octo@example.com"), .ok "main", "ab12cd34",
       "/tmp/ws-c3", ⟨0, "", ""⟩, 0, 0, 0, 0, 0, .ok (), 0, ⟨0, "", ""⟩,
       .ok "https://github.com/o/r/pull/7", .ok "https://github.com/o/r/pull/8",
       .ok ()⟩).countP
      (fun e => e == .createPull "Automated Security Fix"
        ("Fixes vulnerability: " ++ "eval used") "main" "security-fix-ab12cd34") = 2 ∧
    (sentMsgs (fixEvents
      ⟨some "https://github.com/o/r.git", some "ghp-token", some "eval used",
       some "app.py", none, none⟩
      ⟨.ok (some "octocat", some "octo@example.com"), .ok "main", "ab12cd34",
       "/tmp/ws-c3", ⟨0, "", ""⟩, 0, 0, 0, 0, 0, .ok (), 0, ⟨0, "", ""⟩,
       .ok "https://github.com/o/r/pull/7", .ok "https://github.com/o/r/pull/8",
       .ok ()⟩)).getLast? =
      some ⟨.success, "Pull request created successfully",
        some (.obj [("pr_url", .str "https://github.com/o/r/pull/8")])⟩ :=
  ⟨rfl, rfl, rfl⟩
